import Mathlib

/-!
Verification of the lightrag-mcp-server tool dispatcher and HTTP translation
layer, shallowly embedded from src/client.py, src/lightrag_mcp.py,
src/tools.py, src/config.py and src/models.py.

The remote backend is modelled as an oracle from the concrete HTTP request the
client constructs to an HTTP outcome; the local filesystem as a predicate on
paths; the mimetypes registry as an oracle from file names to optional content
types.  Every client method records the requests it issues, so "no network
call" claims are statements about an empty request trace.
-/

namespace LightRag

/-- JSON values as decoded by the Python json module (numbers restricted to
integers; no claim in scope involves fractional numbers). -/
inductive Json where
  | null
  | bool (b : Bool)
  | num (n : Int)
  | str (s : String)
  | arr (items : List Json)
  | obj (members : List (String × Json))

/-- Member lookup on a JSON object, modelling Python dict access and the
membership test (key in payload); non-objects have no members. -/
def Json.lookup : Json → String → Option Json
  | .obj ms, k => ms.lookup k
  | _, _ => none

/-- Python truthiness (bool(v)) of a decoded JSON value: None, False, 0, empty
string, empty list and empty dict are falsy. -/
def Json.truthy : Json → Bool
  | .null => false
  | .bool b => b
  | .num n => n != 0
  | .str s => s != ""
  | .arr l => !l.isEmpty
  | .obj m => !m.isEmpty

/-- A single quote character, used by the Python repr of strings. -/
def sq : String := String.singleton (Char.ofNat 39)

mutual
/-- Python repr of a decoded JSON value (what str() produces for containers
and their elements; string escaping inside repr is not modelled because no
claim exercises it). -/
def Json.pyRepr : Json → String
  | .null => "None"
  | .bool true => "True"
  | .bool false => "False"
  | .num n => toString n
  | .str s => sq ++ s ++ sq
  | .arr l => "[" ++ Json.pyReprItems l ++ "]"
  | .obj m => "\x7b" ++ Json.pyReprMembers m ++ "\x7d"

/-- Comma-separated reprs of list items. -/
def Json.pyReprItems : List Json → String
  | [] => ""
  | [x] => Json.pyRepr x
  | x :: xs => Json.pyRepr x ++ ", " ++ Json.pyReprItems xs

/-- Comma-separated reprs of dict members. -/
def Json.pyReprMembers : List (String × Json) → String
  | [] => ""
  | [(k, v)] => sq ++ k ++ sq ++ ": " ++ Json.pyRepr v
  | (k, v) :: xs => sq ++ k ++ sq ++ ": " ++ Json.pyRepr v ++ ", " ++ Json.pyReprMembers xs
end

/-- Python str() of a decoded JSON value, as used by f-strings and str(qres):
identical to repr except on strings, which print without quotes. -/
def Json.pyStr : Json → String
  | .str s => s
  | v => v.pyRepr

/-- Body of an HTTP request constructed by the client: JSON payload, form
fields, a single multipart file field, or no body. -/
inductive ReqBody where
  | empty
  | jsonB (payload : Json)
  | formB (fields : List (String × String))
  | multipartB (field fileName ctype : String)

/-- An HTTP request as the client hands it to httpx: method, path, the headers
from LightRagHttpClient._headers, the query parameters from _params, the body,
and whether the response is read in streaming mode. -/
structure Request where
  method : String
  path : String
  headers : List (String × String)
  params : List (String × String)
  body : ReqBody
  isStream : Bool

/-- Outcome of an HTTP exchange as observed by the client: a success carries
the optional JSON decoding of the body (none when r.json() raises), the raw
body text, and the body split into lines (for streaming reads); a non-2xx
status makes raise_for_status throw HTTPStatusError; a connection or timeout
failure throws a transport exception. -/
inductive HttpResp where
  | success (decoded : Option Json) (text : String) (lines : List String)
  | errStatus (status : Nat) (reason : String)
  | errTransport (msg : String)

/-- The remote backend, modelled as an oracle from the request the client
sends to the HTTP outcome. -/
abbrev Backend := Request → HttpResp

/-- Exceptions that can escape a client method or a dispatcher branch into
the try/except of call_tool: httpx.HTTPStatusError, a transport error, or a
ValueError raised by argument validation (including unknown tool names). -/
inductive Failure where
  | httpStatus (status : Nat) (reason : String)
  | transport (msg : String)
  | valueError (msg : String)

/-- Session state of one LightRagHttpClient instance: base URL, optional API
key, and the OAuth2 bearer token (None until a login stores one; the stored
value is whatever JSON value the login response carried). -/
structure Session where
  base_url : String
  api_key : Option String
  access_token : Option Json

/-- Headers from LightRagHttpClient._headers: always Accept, X-API-Key when
the api_key is truthy, Authorization with the Bearer token when one is set
and truthy. -/
def headersOf (s : Session) : List (String × String) :=
  [("Accept", "application/json")]
  ++ (match s.api_key with
      | some k => if k != "" then [("X-API-Key", k)] else []
      | none => [])
  ++ (match s.access_token with
      | some t => if t.truthy then [("Authorization", "Bearer " ++ t.pyStr)] else []
      | none => [])

/-- Query parameters from LightRagHttpClient._params: the extra parameters,
plus api_key_header_value when an API key is configured and the extra
parameters do not already bind that name. -/
def paramsOf (s : Session) (extra : List (String × String)) : List (String × String) :=
  match s.api_key with
  | some k =>
      if k != "" ∧ (extra.lookup "api_key_header_value").isNone
      then extra ++ [("api_key_header_value", k)]
      else extra
  | none => extra

/-- Decoding of a 2xx response body with want_obj=True: the JSON value when
r.json() succeeds, else the fallback
object with the raw body text under the key raw (DecodeError is absorbed). -/
def decodeWantObj (decoded : Option Json) (text : String) : Json :=
  match decoded with
  | some j => j
  | none => Json.obj [("raw", Json.str text)]

/-- Client helper _get with want_obj=True: one GET request, decode fallback to
the raw wrapper, status and transport failures raised. -/
def getObj (bk : Backend) (s : Session) (path : String) (extra : List (String × String)) :
    List Request × Except Failure Json :=
  let req : Request := Request.mk "GET" path (headersOf s) (paramsOf s extra) ReqBody.empty false
  ([req],
    match bk req with
    | .success dec text _ => .ok (decodeWantObj dec text)
    | .errStatus st r => .error (.httpStatus st r)
    | .errTransport m => .error (.transport m))

/-- Client helper _post_json with stream=False and want_obj=True. -/
def postJsonObj (bk : Backend) (s : Session) (path : String) (payload : Json) :
    List Request × Except Failure Json :=
  let req : Request := Request.mk "POST" path (headersOf s) (paramsOf s []) (ReqBody.jsonB payload) false
  ([req],
    match bk req with
    | .success dec text _ => .ok (decodeWantObj dec text)
    | .errStatus st r => .error (.httpStatus st r)
    | .errTransport m => .error (.transport m))

/-- Client helper _post_json with stream=True and want_obj=True: the response
body is read line by line, falsy (empty) lines are dropped, the remaining
lines are joined with a newline, and the result is wrapped under raw_stream. -/
def postStreamObj (bk : Backend) (s : Session) (path : String) (payload : Json) :
    List Request × Except Failure Json :=
  let req : Request := Request.mk "POST" path (headersOf s) (paramsOf s []) (ReqBody.jsonB payload) true
  ([req],
    match bk req with
    | .success _ _ lines =>
        .ok (Json.obj [("raw_stream",
          Json.str (String.intercalate "\n" (lines.filter (fun l => l != ""))))])
    | .errStatus st r => .error (.httpStatus st r)
    | .errTransport m => .error (.transport m))

/-- Client helper _post_multipart with want_obj=True: a single multipart file
field. -/
def postMultipartObj (bk : Backend) (s : Session) (path : String)
    (field fileName ctype : String) : List Request × Except Failure Json :=
  let req : Request := Request.mk "POST" path (headersOf s) (paramsOf s [])
    (ReqBody.multipartB field fileName ctype) false
  ([req],
    match bk req with
    | .success dec text _ => .ok (decodeWantObj dec text)
    | .errStatus st r => .error (.httpStatus st r)
    | .errTransport m => .error (.transport m))

/-- Client helper _delete with want_obj=True and an optional JSON body. -/
def deleteObj (bk : Backend) (s : Session) (path : String) (jsonBody : Option Json) :
    List Request × Except Failure Json :=
  let body := match jsonBody with
    | some j => ReqBody.jsonB j
    | none => ReqBody.empty
  let req : Request := Request.mk "DELETE" path (headersOf s) (paramsOf s []) body false
  ([req],
    match bk req with
    | .success dec text _ => .ok (decodeWantObj dec text)
    | .errStatus st r => .error (.httpStatus st r)
    | .errTransport m => .error (.transport m))

/-- First bearer token candidate in the login response: the keys access_token,
token and accessToken are scanned in that order over a dict payload and the
first present key wins; non-dict payloads yield no candidate. -/
def scanToken (payload : Json) : Option Json :=
  match payload with
  | .obj _ =>
      match payload.lookup "access_token" with
      | some v => some v
      | none =>
          match payload.lookup "token" with
          | some v => some v
          | none => payload.lookup "accessToken"
  | _ => none

/-- The request LightRagHttpClient.login sends: form-encoded body, headers
with Accept removed, no query parameters. -/
def loginRequest (s : Session) (username password scope : String) : Request :=
  Request.mk "POST" "/login"
    ((headersOf s).filter (fun kv => kv.1 != "Accept"))
    [] (ReqBody.formB [("username", username), ("password", password), ("scope", scope)]) false

/-- Client method login with want_obj=True: posts the form, decodes the body
with the raw fallback, scans for a bearer token and stores it in the session
when it is truthy, and returns the payload.  Returns the updated session, the
request trace and the result. -/
def loginCall (bk : Backend) (s : Session) (username password scope : String) :
    Session × List Request × Except Failure Json :=
  let req := loginRequest s username password scope
  match bk req with
  | .errStatus st r => (s, [req], .error (.httpStatus st r))
  | .errTransport m => (s, [req], .error (.transport m))
  | .success dec text _ =>
      let payload := decodeWantObj dec text
      let s2 : Session :=
        match scanToken payload with
        | some v =>
            if v.truthy then Session.mk s.base_url s.api_key (some v) else s
        | none => s
      (s2, [req], .ok payload)

/-- Final component of a path, modelling pathlib Path(file_path).name for the
ordinary paths the tools receive. -/
def pathName (p : String) : String :=
  ((p.splitOn "/").filter (fun c => c != "")).getLastD ""

/-- The mimetypes registry, an external table from file names to an optional
guessed content type (mimetypes.guess_type), kept abstract as an oracle. -/
abbrev MimeOracle := String → Option String

/-- Content type for an upload: the guess from the file name, defaulting to
application/octet-stream. -/
def ctypeOf (mime : MimeOracle) (p : String) : String :=
  match mime (pathName p) with
  | some c => c
  | none => "application/octet-stream"

/-- Client method upload_file with want_obj=True: when the path is not an
existing regular file, return the local error object without any request;
otherwise post the file as a single multipart field named file. -/
def uploadFileCall (mime : MimeOracle) (bk : Backend) (fileOk : String → Bool)
    (s : Session) (filePath : String) : List Request × Except Failure Json :=
  if fileOk filePath then
    postMultipartObj bk s "/documents/upload" "file" (pathName filePath) (ctypeOf mime filePath)
  else
    ([], .ok (Json.obj [("error", Json.str ("File not found: " ++ filePath))]))

end LightRag

namespace LightRag

/-- Content block of a tool result: a structured JSON block produced through
_as_json_content, or a plain TextContent constructed directly. -/
inductive Block where
  | jsonB (v : Json)
  | textB (s : String)

/-- Lookup of arguments.get(k): the bound value, or null (Python None) when
the key is absent. -/
def argGet (args : List (String × Json)) (k : String) : Json :=
  match args.lookup k with
  | some v => v
  | none => Json.null

/-- Lookup of arguments.get(k, d) with an explicit default. -/
def argGetD (args : List (String × Json)) (k : String) (d : Json) : Json :=
  match args.lookup k with
  | some v => v
  | none => d

/-- Lookup used where the code tests for Python None (is not None): absent
keys and JSON null both read as None. -/
def argOpt (args : List (String × Json)) (k : String) : Option Json :=
  match args.lookup k with
  | some Json.null => none
  | some v => some v
  | none => none

/-- Quoted name as it appears inside the ValueError messages of call_tool. -/
def qn (s : String) : String := sq ++ s ++ sq

/-- Python int() conversion on a decoded JSON value, as used by the graphs_get
branch; values int() rejects yield none (the raised ValueError message is
abbreviated at the use site). -/
def pyToInt : Json → Option Int
  | .num n => some n
  | .bool b => some (if b then 1 else 0)
  | .str s => s.toInt?
  | _ => none

/-- Field names of models.QueryRequest; pydantic ignores keys outside this
set and model_dump(exclude_unset=True) keeps exactly the provided fields. -/
def queryFields : List String :=
  ["query", "mode", "only_need_context", "only_need_prompt", "response_type",
   "top_k", "chunk_top_k", "max_entity_tokens", "max_relation_tokens",
   "max_total_tokens", "conversation_history", "history_turns", "ids",
   "user_prompt", "enable_rerank"]

/-- Per-field validation of models.QueryRequest under pydantic v2 smart mode:
query and mode must be strings (the enum keyword on mode is schema metadata
only and is not enforced at runtime), the Optional bool, str, bounded int and
list fields accept null or a value of their type within the declared bound. -/
def qrValueOk (k : String) (v : Json) : Bool :=
  if k = "query" ∨ k = "mode" ∨ k = "response_type" ∨ k = "user_prompt" then
    match k, v with
    | "query", .str _ => true
    | "mode", .str _ => true
    | "response_type", .str _ => true
    | "response_type", .null => true
    | "user_prompt", .str _ => true
    | "user_prompt", .null => true
    | _, _ => false
  else if k = "only_need_context" ∨ k = "only_need_prompt" ∨ k = "enable_rerank" then
    match v with
    | .null => true
    | .bool _ => true
    | _ => false
  else if k = "top_k" ∨ k = "chunk_top_k" ∨ k = "max_entity_tokens"
      ∨ k = "max_relation_tokens" ∨ k = "max_total_tokens" then
    match v with
    | .null => true
    | .num n => 1 ≤ n
    | _ => false
  else if k = "history_turns" then
    match v with
    | .null => true
    | .num n => 0 ≤ n
    | _ => false
  else if k = "conversation_history" then
    match v with
    | .null => true
    | .arr items => items.all (fun i => match i with | .obj _ => true | _ => false)
    | _ => false
  else if k = "ids" then
    match v with
    | .null => true
    | .arr items => items.all (fun i => match i with | .str _ => true | _ => false)
    | _ => false
  else true

/-- Validation and dump of QueryRequest(**arguments).model_dump with
exclude_unset=True: the required query field must be present, every provided
model field must validate, unknown keys are dropped, and the dump is the list
of provided model fields.  Error messages stand in for the pydantic text,
which no theorem depends on.  The empty string is a valid query value: the
model declares query as a plain str with no minimum length. -/
def validateQuery (args : List (String × Json)) : Except String (List (String × Json)) :=
  if (args.lookup "query").isNone then
    .error "1 validation error for QueryRequest: query Field required"
  else
    let provided := args.filter (fun kv => kv.1 ∈ queryFields)
    if provided.all (fun kv => qrValueOk kv.1 kv.2) then .ok provided
    else .error "validation error for QueryRequest"

/-- Fan-out of documents_upload_files: one upload task per path, joined by
asyncio.gather, which preserves input order in its result list; when a task
raises, gather re-raises that exception (the surviving results are lost) --
the raised exception is determinised here to the first failing path in input
order.  All requests of all tasks are recorded because every task runs. -/
def gatherUploads (mime : MimeOracle) (bk : Backend) (fileOk : String → Bool)
    (s : Session) : List Json → List Request × Except Failure (List Json)
  | [] => ([], .ok [])
  | p :: ps =>
      let r := uploadFileCall mime bk fileOk s p.pyStr
      let rest := gatherUploads mime bk fileOk s ps
      (r.1 ++ rest.1,
        match r.2 with
        | .error e => .error e
        | .ok j =>
            match rest.2 with
            | .error e => .error e
            | .ok js => .ok (j :: js))

/-- Success wrapper used by most branches: a JSON block holding the object
with the single key result. -/
def wrapResult (tr : List Request × Except Failure Json) :
    List Request × Except Failure Block :=
  (tr.1, tr.2.map (fun j => Block.jsonB (Json.obj [("result", j)])))

/-- Success wrapper echoing one piece of context before the result. -/
def wrapWith (k : String) (kv : Json) (tr : List Request × Except Failure Json) :
    List Request × Except Failure Block :=
  (tr.1, tr.2.map (fun j => Block.jsonB (Json.obj [(k, kv), ("result", j)])))

/-- Resolved configuration handed to the client constructor: base URL and
optional API key (resolve_config maps an empty key to None). -/
structure Config where
  base_url : String
  api_key : Option String

/-- Session of a freshly constructed LightRagHttpClient(): resolved base URL
and API key, and no bearer token. -/
def initSession (cfg : Config) : Session :=
  Session.mk cfg.base_url cfg.api_key none

end LightRag

namespace LightRag

/-- Body of the call_tool dispatcher of lightrag_mcp.py, inside its try block:
one branch per tool name, each issuing at most one client call and producing
one content block, with every validation failure raised as a ValueError.
A fresh client is constructed per call, so the session argument is the
initial session of that fresh client.  The final else raises the unknown-tool
ValueError.  Branches that pass a non-string argument value into a
string-typed client parameter coerce it with str(), standing in for the
f-string or transport-level coercion Python applies on those exotic inputs. -/
def callToolBody (mime : MimeOracle) (bk : Backend) (fileOk : String → Bool)
    (s : Session) (name : String) (args : List (String × Json)) :
    List Request × Except Failure Block :=
  if name = "health" then
    wrapResult (getObj bk s "/health" [])
  else if name = "auth_status" then
    wrapResult (getObj bk s "/auth-status" [])
  else if name = "auth_login" then
    let username := argGet args "username"
    let password := argGet args "password"
    let scope := argGetD args "scope" (Json.str "")
    if !username.truthy ∨ !password.truthy then
      ([], .error (.valueError (qn "username" ++ " and " ++ qn "password" ++ " are required")))
    else
      let r := loginCall bk s username.pyStr password.pyStr scope.pyStr
      (r.2.1, r.2.2.map (fun payload => Block.jsonB (Json.obj [("result", payload)])))
  else if name = "documents_scan" then
    wrapResult (postJsonObj bk s "/documents/scan" (Json.obj []))
  else if name = "documents_upload_file" then
    let fp := argGet args "file_path"
    if !fp.truthy then
      ([], .error (.valueError (qn "file_path" ++ " is required")))
    else
      wrapWith "file" fp (uploadFileCall mime bk fileOk s fp.pyStr)
  else if name = "documents_upload_files" then
    let fps := argGet args "file_paths"
    match fps with
    | .arr l =>
        if l.isEmpty then
          ([], .error (.valueError (qn "file_paths" ++ " must be a non-empty list")))
        else
          let g := gatherUploads mime bk fileOk s l
          (g.1, g.2.map (fun js => Block.jsonB (Json.obj [("results", Json.arr js)])))
    | _ => ([], .error (.valueError (qn "file_paths" ++ " must be a non-empty list")))
  else if name = "documents_insert_text" then
    let text := argGet args "text"
    if !text.truthy then
      ([], .error (.valueError (qn "text" ++ " is required")))
    else
      let payload := Json.obj ([("text", text)] ++
        (match argOpt args "file_source" with
         | some v => [("file_source", v)]
         | none => []))
      wrapResult (postJsonObj bk s "/documents/text" payload)
  else if name = "documents_insert_texts" then
    let texts := argGet args "texts"
    match texts with
    | .arr l =>
        if l.isEmpty then
          ([], .error (.valueError (qn "texts" ++ " must be a non-empty list of strings")))
        else
          let payload := Json.obj ([("texts", Json.arr l)] ++
            (match argOpt args "file_sources" with
             | some v => [("file_sources", v)]
             | none => []))
          wrapResult (postJsonObj bk s "/documents/texts" payload)
    | _ => ([], .error (.valueError (qn "texts" ++ " must be a non-empty list of strings")))
  else if name = "documents_clear_all" then
    wrapResult (deleteObj bk s "/documents" none)
  else if name = "documents_list_statuses" then
    wrapResult (getObj bk s "/documents" [])
  else if name = "documents_pipeline_status" then
    wrapResult (getObj bk s "/documents/pipeline_status" [])
  else if name = "documents_delete_by_ids" then
    let docIds := argGet args "doc_ids"
    match docIds with
    | .arr l =>
        if l.isEmpty then
          ([], .error (.valueError (qn "doc_ids" ++ " must be a non-empty list of strings")))
        else
          let deleteFile := (argGetD args "delete_file" (Json.bool false)).truthy
          let payload := Json.obj [("doc_ids", Json.arr l), ("delete_file", Json.bool deleteFile)]
          wrapResult (deleteObj bk s "/documents/delete_document" (some payload))
    | _ => ([], .error (.valueError (qn "doc_ids" ++ " must be a non-empty list of strings")))
  else if name = "documents_clear_cache" then
    wrapResult (postJsonObj bk s "/documents/clear_cache" (Json.obj []))
  else if name = "documents_delete_entity" then
    let en := argGet args "entity_name"
    if !en.truthy then
      ([], .error (.valueError (qn "entity_name" ++ " is required")))
    else
      wrapResult (deleteObj bk s "/documents/delete_entity" (some (Json.obj [("entity_name", en)])))
  else if name = "documents_delete_relation" then
    let se := argGet args "source_entity"
    let te := argGet args "target_entity"
    if !se.truthy ∨ !te.truthy then
      ([], .error (.valueError (qn "source_entity" ++ " and " ++ qn "target_entity" ++ " are required")))
    else
      wrapResult (deleteObj bk s "/documents/delete_relation"
        (some (Json.obj [("source_entity", se), ("target_entity", te)])))
  else if name = "documents_track_status" then
    let tid := argGet args "track_id"
    if !tid.truthy then
      ([], .error (.valueError (qn "track_id" ++ " is required")))
    else
      wrapWith "track_id" tid (getObj bk s ("/documents/track_status/" ++ tid.pyStr) [])
  else if name = "documents_paginated" then
    let req := Json.obj args
    wrapWith "request" req (postJsonObj bk s "/documents/paginated" req)
  else if name = "documents_status_counts" then
    wrapResult (getObj bk s "/documents/status_counts" [])
  else if name = "query" then
    match validateQuery args with
    | .error e => ([], .error (.valueError ("Invalid query arguments: " ++ e)))
    | .ok req =>
        let r := postJsonObj bk s "/query" (Json.obj req)
        (r.1,
          match r.2 with
          | .error e => .error e
          | .ok qres =>
              match qres.lookup "response" with
              | some (Json.str t) => .ok (Block.textB t)
              | some _ =>
                  .error (.valueError
                    "1 validation error for TextContent: text Input should be a valid string")
              | none => .ok (Block.textB qres.pyStr))
  else if name = "query_stream" then
    match validateQuery args with
    | .error e => ([], .error (.valueError ("Invalid query arguments: " ++ e)))
    | .ok req =>
        let r := postStreamObj bk s "/query/stream" (Json.obj req)
        (r.1,
          match r.2 with
          | .error e => .error e
          | .ok sres =>
              let streamText :=
                match sres with
                | .obj _ =>
                    match sres.lookup "raw_stream" with
                    | some v => v
                    | none => Json.null
                | v => Json.str v.pyStr
              .ok (Block.jsonB (Json.obj [("request", Json.obj req), ("stream", streamText)])))
  else if name = "graph_labels" then
    wrapResult (getObj bk s "/graph/label/list" [])
  else if name = "graphs_get" then
    let label := argGet args "label"
    if !label.truthy then
      ([], .error (.valueError (qn "label" ++ " is required")))
    else
      match pyToInt (argGetD args "max_depth" (Json.num 3)),
            pyToInt (argGetD args "max_nodes" (Json.num 1000)) with
      | some md, some mn =>
          wrapWith "label" label (getObj bk s "/graphs"
            [("label", label.pyStr), ("max_depth", toString md), ("max_nodes", toString mn)])
      | _, _ => ([], .error (.valueError "invalid literal for int() with base 10"))
  else if name = "graph_entity_exists" then
    let nm := argGet args "name"
    if !nm.truthy then
      ([], .error (.valueError (qn "name" ++ " is required")))
    else
      wrapWith "name" nm (getObj bk s "/graph/entity/exists" [("name", nm.pyStr)])
  else if name = "graph_update_entity" then
    let en := argGet args "entity_name"
    let allow := (argGetD args "allow_rename" (Json.bool false)).truthy
    match argOpt args "updated_data" with
    | some d =>
        if !en.truthy then
          ([], .error (.valueError (qn "entity_name" ++ " and " ++ qn "updated_data" ++ " are required")))
        else
          wrapResult (postJsonObj bk s "/graph/entity/edit"
            (Json.obj [("entity_name", en), ("updated_data", d), ("allow_rename", Json.bool allow)]))
    | none =>
        ([], .error (.valueError (qn "entity_name" ++ " and " ++ qn "updated_data" ++ " are required")))
  else if name = "graph_update_relation" then
    let sid := argGet args "source_id"
    let tid := argGet args "target_id"
    match argOpt args "updated_data" with
    | some d =>
        if !sid.truthy ∨ !tid.truthy then
          ([], .error (.valueError
            (qn "source_id" ++ ", " ++ qn "target_id" ++ ", " ++ qn "updated_data" ++ " are required")))
        else
          wrapResult (postJsonObj bk s "/graph/relation/edit"
            (Json.obj [("source_id", sid), ("target_id", tid), ("updated_data", d)]))
    | none =>
        ([], .error (.valueError
          (qn "source_id" ++ ", " ++ qn "target_id" ++ ", " ++ qn "updated_data" ++ " are required")))
  else if name = "ollama_version" then
    wrapResult (getObj bk s "/api/version" [])
  else if name = "ollama_tags" then
    wrapResult (getObj bk s "/api/tags" [])
  else if name = "ollama_ps" then
    wrapResult (getObj bk s "/api/ps" [])
  else if name = "ollama_generate" then
    match argGet args "payload" with
    | Json.obj ms =>
        wrapWith "request" (Json.obj ms) (postJsonObj bk s "/api/generate" (Json.obj ms))
    | _ => ([], .error (.valueError (qn "payload" ++ " (object) is required")))
  else if name = "ollama_chat" then
    match argGet args "payload" with
    | Json.obj ms =>
        wrapWith "request" (Json.obj ms) (postJsonObj bk s "/api/chat" (Json.obj ms))
    | _ => ([], .error (.valueError (qn "payload" ++ " (object) is required")))
  else
    ([], .error (.valueError ("Unknown tool: " ++ name)))

/-- Exception normalisation of the except clauses of call_tool: an
HTTPStatusError becomes the text HTTP error: status reason, every other
exception becomes the text Error: message. -/
def handleFailure : Except Failure Block → Block
  | .ok b => b
  | .error (.httpStatus st r) => Block.textB ("HTTP error: " ++ toString st ++ " " ++ r)
  | .error (.transport m) => Block.textB ("Error: " ++ m)
  | .error (.valueError m) => Block.textB ("Error: " ++ m)

/-- The call_tool dispatcher of lightrag_mcp.py: constructs a fresh
LightRagHttpClient (hence a session with no bearer token), runs the matching
branch, and turns any raised exception into a single in-band text block.
Returns the trace of HTTP requests issued and the content blocks returned to
the host. -/
def callTool (mime : MimeOracle) (bk : Backend) (fileOk : String → Bool)
    (cfg : Config) (name : String) (args : List (String × Json)) :
    List Request × List Block :=
  ((callToolBody mime bk fileOk (initSession cfg) name args).1,
   [handleFailure (callToolBody mime bk fileOk (initSession cfg) name args).2])

/-- Names handled by a branch of call_tool, in source order. -/
def dispatchNames : List String :=
  ["health", "auth_status", "auth_login", "documents_scan",
   "documents_upload_file", "documents_upload_files", "documents_insert_text",
   "documents_insert_texts", "documents_clear_all", "documents_list_statuses",
   "documents_pipeline_status", "documents_delete_by_ids",
   "documents_clear_cache", "documents_delete_entity",
   "documents_delete_relation", "documents_track_status",
   "documents_paginated", "documents_status_counts", "query", "query_stream",
   "graph_labels", "graphs_get", "graph_entity_exists", "graph_update_entity",
   "graph_update_relation", "ollama_version", "ollama_tags", "ollama_ps",
   "ollama_generate", "ollama_chat"]

/-- Names of the descriptors returned by tools.list_tools, in catalog order;
the function takes no argument and returns the full catalog unconditionally. -/
def listToolNames : List String :=
  ["health", "auth_status", "auth_login", "documents_scan",
   "documents_upload_file", "documents_upload_files", "documents_insert_text",
   "documents_insert_texts", "documents_clear_all", "documents_list_statuses",
   "documents_pipeline_status", "documents_delete_by_ids",
   "documents_clear_cache", "documents_delete_entity",
   "documents_delete_relation", "documents_track_status",
   "documents_paginated", "documents_status_counts", "query", "query_stream",
   "graph_labels", "graphs_get", "graph_entity_exists", "graph_update_entity",
   "graph_update_relation", "ollama_version", "ollama_tags", "ollama_ps",
   "ollama_generate", "ollama_chat"]

/-- The list_tools_mcp handler of lightrag_mcp.py projected to tool names: it
returns tools.list_tools() unchanged, consulting neither the enabled-tools
configuration nor any session or network state. -/
def advertisedToolNames : List String := listToolNames

/-- DEFAULT_TOOLS of config.py: the enabled-tools list of the default
configuration. -/
def DEFAULT_TOOLS : List String :=
  ["query", "documents_upload_file", "documents_insert_text",
   "documents_scan", "graphs_get"]

end LightRag

namespace LightRag

/-! Concrete fixtures used by closed theorems and witnesses: a mimetypes
oracle with no entries, a filesystem with no files, a filesystem containing
only /b, the default resolved configuration, and a few fixed backends. -/

/-- Mimetypes oracle that knows no extension. -/
def mimeNone : MimeOracle := fun _ => none

/-- Filesystem on which no path is an existing regular file. -/
def fsNone : String → Bool := fun _ => false

/-- Filesystem on which exactly the path /b is an existing regular file. -/
def fsOnlyB : String → Bool := fun p => p == "/b"

/-- Default resolved configuration: localhost base URL and no API key. -/
def cfgDefault : Config := Config.mk "http://localhost:9621" none

/-- Backend whose every response decodes to the object with key response and
value pong. -/
def bkPong : Backend := fun _ =>
  HttpResp.success (some (Json.obj [("response", Json.str "pong")])) "" []

/-- Backend answering every request with HTTP status 404. -/
def bkStatus404 : Backend := fun _ => HttpResp.errStatus 404 "Not Found"

/-- Backend answering every request with HTTP status 500. -/
def bkStatus500 : Backend := fun _ => HttpResp.errStatus 500 "Internal Server Error"

/-- Backend whose login response carries an access_token field. -/
def bkLoginTok : Backend := fun _ =>
  HttpResp.success (some (Json.obj [("access_token", Json.str "tok")])) "" []

/-- Backend whose login response carries both token and access_token, the
latter being the higher-priority key. -/
def bkLoginBoth : Backend := fun _ =>
  HttpResp.success (some (Json.obj [("token", Json.str "abc"), ("access_token", Json.str "xyz")])) "" []

/-- Backend whose login response binds the highest-priority key access_token
to the empty (falsy) string and the lower-priority key token to abc. -/
def bkLoginFalsy : Backend := fun _ =>
  HttpResp.success (some (Json.obj [("access_token", Json.str ""), ("token", Json.str "abc")])) "" []

/-- Backend whose every response decodes to the object with key status and
value ok. -/
def bkStatusOk : Backend := fun _ =>
  HttpResp.success (some (Json.obj [("status", Json.str "ok")])) "" []

/-- Backend whose every response decodes to the object binding response to
the number 5, a non-string response value. -/
def bkNum5 : Backend := fun _ =>
  HttpResp.success (some (Json.obj [("response", Json.num 5)])) "" []

/-- The HTTP request the query branch sends: POST /query with the validated
request dump as JSON body, built on the fresh-client session. -/
def queryHttpRequest (cfg : Config) (req : List (String × Json)) : Request :=
  Request.mk "POST" "/query" (headersOf (initSession cfg))
    (paramsOf (initSession cfg) []) (ReqBody.jsonB (Json.obj req)) false

/-- The HTTP request the query_stream branch sends: POST /query/stream with
the validated request dump as JSON body, read in streaming mode. -/
def queryStreamHttpRequest (cfg : Config) (req : List (String × Json)) : Request :=
  Request.mk "POST" "/query/stream" (headersOf (initSession cfg))
    (paramsOf (initSession cfg) []) (ReqBody.jsonB (Json.obj req)) true

/-- Value of a non-raising upload task; the default on the error side is
never reached under the hypotheses that use this accessor. -/
def okD : Except Failure Json → Json
  | .ok j => j
  | .error _ => Json.null

/-- Backend that accepts every upload with a fixed acknowledgement object. -/
def bkUploadOk : Backend := fun _ =>
  HttpResp.success (some (Json.obj [("status", Json.str "accepted")])) "" []

/-- C10: on every path, success or failure, for every tool name and every
argument object, the dispatcher returns a list of exactly one content block. -/
theorem C10_exactly_one_block (mime : MimeOracle) (bk : Backend)
    (fileOk : String → Bool) (cfg : Config) (name : String)
    (args : List (String × Json)) :
    (callTool mime bk fileOk cfg name args).2.length = 1 := rfl

/-- C1: the code drops the bearer token between calls.  The client object
created inside the auth_login dispatch does store the token extracted from
the login response (first conjunct) and the dispatch reports success (second
conjunct), but call_tool constructs a fresh LightRagHttpClient for every
invocation, so the request issued by the next tool call carries only the
Accept header and no Authorization header (third conjunct), contradicting the
claim that every subsequent call attaches Authorization: Bearer tok. -/
theorem C1_bearer_token_dropped :
    (loginCall bkLoginTok (initSession cfgDefault) "u" "p" "").1.access_token =
      some (Json.str "tok")
    ∧ (callTool mimeNone bkLoginTok fsNone cfgDefault "auth_login"
        [("username", Json.str "u"), ("password", Json.str "p")]).2 =
      [Block.jsonB (Json.obj [("result", Json.obj [("access_token", Json.str "tok")])])]
    ∧ (callTool mimeNone bkLoginTok fsNone cfgDefault "health" []).1 =
      [Request.mk "GET" "/health" [("Accept", "application/json")] [] ReqBody.empty false] :=
  ⟨rfl, rfl, rfl⟩

/-- C8: the enabled-tools configuration is never applied.  tools.list_tools
takes no argument and the list_tools_mcp handler returns it unchanged, so the
advertised catalog always has all 30 descriptors; under the default
configuration the enabled list is DEFAULT_TOOLS, yet names outside it, such
as health, are still advertised. -/
theorem C8_enabled_filter_not_applied :
    advertisedToolNames.length = 30
    ∧ DEFAULT_TOOLS = ["query", "documents_upload_file", "documents_insert_text",
        "documents_scan", "graphs_get"]
    ∧ "health" ∈ advertisedToolNames
    ∧ "health" ∉ DEFAULT_TOOLS
    ∧ advertisedToolNames = listToolNames :=
  ⟨rfl, rfl, by decide, by decide, rfl⟩

/-- C7 counterexample: the empty string is accepted as a query value.  The
pydantic model declares query as a plain str with no minimum length, so the
call with query equal to the empty string passes validation, issues a POST
/query HTTP request (second conjunct refutes the no-HTTP-call part of the
claim), and returns the backend answer rather than an in-band validation
error (third conjunct). -/
theorem C7_empty_query_not_rejected :
    validateQuery [("query", Json.str "")] = .ok [("query", Json.str "")]
    ∧ (callTool mimeNone bkPong fsNone cfgDefault "query" [("query", Json.str "")]).1 =
      [Request.mk "POST" "/query" [("Accept", "application/json")] []
        (ReqBody.jsonB (Json.obj [("query", Json.str "")])) false]
    ∧ (callTool mimeNone bkPong fsNone cfgDefault "query" [("query", Json.str "")]).2 =
      [Block.textB "pong"] :=
  ⟨rfl, rfl, rfl⟩

/-- C4 counterexample: a falsy matched token value is not stored.  The login
response binds the highest-priority key access_token to the empty string, so
the scan matches the empty string first (first conjunct), yet the client
leaves the session token unset because the store is guarded by a truthiness
test (second conjunct), while the login call still succeeds (third conjunct);
the claim as stated requires the matched value, the empty string, to become
the new bearer token. -/
theorem C4_falsy_token_not_stored :
    scanToken (Json.obj [("access_token", Json.str ""), ("token", Json.str "abc")]) =
      some (Json.str "")
    ∧ (loginCall bkLoginFalsy (initSession cfgDefault) "u" "p" "").1.access_token = none
    ∧ (loginCall bkLoginFalsy (initSession cfgDefault) "u" "p" "").2.2 =
      .ok (Json.obj [("access_token", Json.str ""), ("token", Json.str "abc")]) :=
  ⟨rfl, rfl, rfl⟩

/-- C6 counterexample: an HTTP failure on one upload aborts the whole batch.
With /a absent locally and /b present, and a backend that answers the /b
multipart upload with HTTP 500, the batch call returns a single HTTP-error
text block (first conjunct) instead of the index-aligned results array of
length 2 the claim requires, even though the /a entry on its own had a
perfectly good local error value (second conjunct): asyncio.gather re-raises
the exception of the failed task and the sibling result is lost. -/
theorem C6_http_failure_aborts_batch :
    (callTool mimeNone bkStatus500 fsOnlyB cfgDefault "documents_upload_files"
        [("file_paths", Json.arr [Json.str "/a", Json.str "/b"])]).2 =
      [Block.textB "HTTP error: 500 Internal Server Error"]
    ∧ (uploadFileCall mimeNone bkStatus500 fsOnlyB (initSession cfgDefault) "/a").2 =
      .ok (Json.obj [("error", Json.str "File not found: /a")]) :=
  ⟨rfl, rfl⟩

end LightRag

namespace LightRag

/-- C5: uploading a nonexistent file performs no network request and returns
the local structured error.  At the client level upload_file issues no
request and returns exactly the object with key error and the interpolated
message (first conjunct); at the dispatcher level the call returns an empty
request trace and one JSON block embedding that object as the result field
(second conjunct). -/
theorem C5_upload_missing_file (mime : MimeOracle) (bk : Backend)
    (fileOk : String → Bool) (cfg : Config) (fp : String)
    (hmiss : fileOk fp = false) (hne : fp ≠ "") :
    uploadFileCall mime bk fileOk (initSession cfg) fp =
      ([], .ok (Json.obj [("error", Json.str ("File not found: " ++ fp))]))
    ∧ callTool mime bk fileOk cfg "documents_upload_file" [("file_path", Json.str fp)] =
      ([], [Block.jsonB (Json.obj [("file", Json.str fp),
        ("result", Json.obj [("error", Json.str ("File not found: " ++ fp))])])]) := by
  constructor
  · simp [uploadFileCall, hmiss]
  · simp [callTool, callToolBody, argGet, List.lookup, Json.truthy, Json.pyStr, hne,
      uploadFileCall, hmiss, wrapWith, handleFailure, initSession, Except.map]

/-- C5 witness: the concrete path /no/such/file on the empty filesystem. -/
theorem C5_upload_missing_file_witness :
    uploadFileCall mimeNone bkStatusOk fsNone (initSession cfgDefault) "/no/such/file" =
      ([], .ok (Json.obj [("error", Json.str "File not found: /no/such/file")]))
    ∧ callTool mimeNone bkStatusOk fsNone cfgDefault "documents_upload_file"
        [("file_path", Json.str "/no/such/file")] =
      ([], [Block.jsonB (Json.obj [("file", Json.str "/no/such/file"),
        ("result", Json.obj [("error", Json.str "File not found: /no/such/file")])])]) :=
  C5_upload_missing_file mimeNone bkStatusOk fsNone cfgDefault "/no/such/file" rfl (by decide)

/-- C4 amended: for every login whose response decodes to a JSON payload, the
call succeeds with that payload, and the session token afterwards is the
first value found under access_token, token, accessToken in that priority
order provided it is truthy, and is otherwise left unchanged. -/
theorem C4_login_token_extraction (bk : Backend) (s : Session)
    (u p sc : String) (payload : Json) (text : String) (lines : List String)
    (hbk : bk (loginRequest s u p sc) = HttpResp.success (some payload) text lines) :
    (loginCall bk s u p sc).2.2 = .ok payload
    ∧ (loginCall bk s u p sc).1.access_token =
      (match scanToken payload with
       | some v => if v.truthy then some v else s.access_token
       | none => s.access_token) := by
  refine ⟨by simp [loginCall, hbk, decodeWantObj], ?_⟩
  cases hscan : scanToken payload with
  | none => simp [loginCall, hbk, decodeWantObj, hscan]
  | some v =>
      cases ht : v.truthy with
      | true => simp [loginCall, hbk, decodeWantObj, hscan, ht]
      | false => simp [loginCall, hbk, decodeWantObj, hscan, ht]

/-- C4 witness: the login response binding token to abc and access_token to
xyz stores xyz, the value of the higher-priority key. -/
theorem C4_login_token_extraction_witness :
    (loginCall bkLoginBoth (initSession cfgDefault) "u" "p" "").2.2 =
      .ok (Json.obj [("token", Json.str "abc"), ("access_token", Json.str "xyz")])
    ∧ (loginCall bkLoginBoth (initSession cfgDefault) "u" "p" "").1.access_token =
      some (Json.str "xyz") := by
  have h := C4_login_token_extraction bkLoginBoth (initSession cfgDefault) "u" "p" ""
    (Json.obj [("token", Json.str "abc"), ("access_token", Json.str "xyz")]) "" [] rfl
  exact ⟨h.1, h.2.trans rfl⟩

end LightRag

namespace LightRag

/-- Reduction of the dispatcher body on a name no branch handles: the final
else of call_tool raises the unknown-tool ValueError without issuing any
request. -/
theorem callToolBody_unknown (mime : MimeOracle) (bk : Backend)
    (fileOk : String → Bool) (s : Session) (name : String)
    (args : List (String × Json)) (h : name ∉ dispatchNames) :
    callToolBody mime bk fileOk s name args =
      ([], .error (.valueError ("Unknown tool: " ++ name))) := by
  simp only [dispatchNames, List.mem_cons, List.not_mem_nil, or_false, not_or] at h
  obtain ⟨h1, h2, h3, h4, h5, h6, h7, h8, h9, h10, h11, h12, h13, h14, h15,
    h16, h17, h18, h19, h20, h21, h22, h23, h24, h25, h26, h27, h28, h29, h30⟩ := h
  simp [callToolBody, h1, h2, h3, h4, h5, h6, h7, h8, h9, h10, h11, h12, h13,
    h14, h15, h16, h17, h18, h19, h20, h21, h22, h23, h24, h25, h26, h27, h28,
    h29, h30]

end LightRag

namespace LightRag

/-- C2: every failure mode is normalised into a single in-band text block and
no failure escapes the dispatcher.  The call always produces exactly one
block (first conjunct); a raised HTTPStatusError becomes the text HTTP
error: status reason (second conjunct); a raised ValueError or transport
error becomes the text Error: message (third and fourth conjuncts); a name
with no branch issues no request and yields exactly Error: Unknown tool:
name (fifth conjunct); and a 2xx response whose body fails to decode is not
an error at all: the payload becomes the object binding raw to the body text
inside an ordinary success result (sixth conjunct, stated on the GET helper;
seventh conjunct, stated on the POST helper). -/
theorem C2_failure_normalization (mime : MimeOracle) (bk : Backend)
    (fileOk : String → Bool) (cfg : Config) (name : String)
    (args : List (String × Json)) (st : Nat) (reason msg text path : String)
    (lines : List String) (extra : List (String × String)) (payload : Json) :
    (∃ blk, (callTool mime bk fileOk cfg name args).2 = [blk])
    ∧ ((callToolBody mime bk fileOk (initSession cfg) name args).2 =
          .error (.httpStatus st reason) →
        (callTool mime bk fileOk cfg name args).2 =
          [Block.textB ("HTTP error: " ++ toString st ++ " " ++ reason)])
    ∧ ((callToolBody mime bk fileOk (initSession cfg) name args).2 =
          .error (.valueError msg) →
        (callTool mime bk fileOk cfg name args).2 = [Block.textB ("Error: " ++ msg)])
    ∧ ((callToolBody mime bk fileOk (initSession cfg) name args).2 =
          .error (.transport msg) →
        (callTool mime bk fileOk cfg name args).2 = [Block.textB ("Error: " ++ msg)])
    ∧ (name ∉ dispatchNames →
        callTool mime bk fileOk cfg name args =
          ([], [Block.textB ("Error: Unknown tool: " ++ name)]))
    ∧ (bk (Request.mk "GET" path (headersOf (initSession cfg))
          (paramsOf (initSession cfg) extra) ReqBody.empty false) =
          HttpResp.success none text lines →
        (getObj bk (initSession cfg) path extra).2 =
          .ok (Json.obj [("raw", Json.str text)]))
    ∧ (bk (Request.mk "POST" path (headersOf (initSession cfg))
          (paramsOf (initSession cfg) []) (ReqBody.jsonB payload) false) =
          HttpResp.success none text lines →
        (postJsonObj bk (initSession cfg) path payload).2 =
          .ok (Json.obj [("raw", Json.str text)])) := by
  refine ⟨⟨handleFailure (callToolBody mime bk fileOk (initSession cfg) name args).2, rfl⟩,
    ?_, ?_, ?_, ?_, ?_, ?_⟩
  · intro h; simp [callTool, h, handleFailure]
  · intro h; simp [callTool, h, handleFailure]
  · intro h; simp [callTool, h, handleFailure]
  · intro h
    have hb := callToolBody_unknown mime bk fileOk (initSession cfg) name args h
    simp only [callTool, hb, handleFailure]
    rw [← String.append_assoc]
    rfl
  · intro h; simp [getObj, h, decodeWantObj]
  · intro h; simp [postJsonObj, h, decodeWantObj]

/-- C2 witness: with a backend answering 404 to everything, the health tool
yields exactly the text HTTP error: 404 Not Found; an unregistered name
yields exactly the text Error: Unknown tool: does_not_exist with no request
issued. -/
theorem C2_failure_normalization_witness :
    (callTool mimeNone bkStatus404 fsNone cfgDefault "health" []).2 =
      [Block.textB "HTTP error: 404 Not Found"]
    ∧ callTool mimeNone bkStatus404 fsNone cfgDefault "does_not_exist" [] =
      ([], [Block.textB "Error: Unknown tool: does_not_exist"]) := by
  constructor
  · exact (C2_failure_normalization mimeNone bkStatus404 fsNone cfgDefault
      "health" [] 404 "Not Found" "" "" "" [] [] Json.null).2.1 rfl
  · exact (C2_failure_normalization mimeNone bkStatus404 fsNone cfgDefault
      "does_not_exist" [] 0 "" "" "" "" [] [] Json.null).2.2.2.2.1 (by decide)

end LightRag

namespace LightRag

/-- C3 counterexample: a non-string response value is not returned as a bare
text block.  With the backend reply binding response to the number 5, the
bare-text rendering of that value would be the text block 5 (first conjunct
shows the rendering), but constructing TextContent with a non-string text
raises a pydantic ValidationError inside the try block, so the dispatcher
returns a single in-band Error text block instead (second conjunct), which
differs from the bare value block (third conjunct); the claim as stated
covers every reply containing a response key and is therefore false here. -/
theorem C3_nonstring_response_not_bare :
    (Json.num 5).pyStr = "5"
    ∧ (callTool mimeNone bkNum5 fsNone cfgDefault "query" [("query", Json.str "x")]).2 =
      [Block.textB "Error: 1 validation error for TextContent: text Input should be a valid string"]
    ∧ (callTool mimeNone bkNum5 fsNone cfgDefault "query" [("query", Json.str "x")]).2 ≠
      [Block.textB "5"] := by
  refine ⟨rfl, rfl, ?_⟩
  intro h
  rw [show (callTool mimeNone bkNum5 fsNone cfgDefault "query" [("query", Json.str "x")]).2 =
    [Block.textB "Error: 1 validation error for TextContent: text Input should be a valid string"]
    from rfl] at h
  have h2 := List.head_eq_of_cons_eq h
  injection h2 with h3
  exact absurd h3 (by decide)

/-- C3 amended: the query tool extracts the response field.  When the backend
reply decodes to a value whose response key holds a string, the dispatcher
returns that string as a bare text block, not a JSON block (first conjunct);
when the reply has no response key, it returns one text block holding the
Python stringification of the whole reply (second conjunct); when the
response key holds a non-string value, the TextContent construction fails
validation and the call returns a single in-band Error text block instead
(third conjunct). -/
theorem C3_query_response_extraction (mime : MimeOracle) (fileOk : String → Bool)
    (cfg : Config) (args req : List (String × Json)) (bk : Backend)
    (reply : Json) (text : String) (lines : List String)
    (hval : validateQuery args = .ok req)
    (hbk : bk (queryHttpRequest cfg req) = HttpResp.success (some reply) text lines) :
    (∀ t, reply.lookup "response" = some (Json.str t) →
      (callTool mime bk fileOk cfg "query" args).2 = [Block.textB t])
    ∧ (reply.lookup "response" = none →
      (callTool mime bk fileOk cfg "query" args).2 = [Block.textB reply.pyStr])
    ∧ (∀ v, reply.lookup "response" = some v → (∀ t, v ≠ Json.str t) →
      ∃ m, (callTool mime bk fileOk cfg "query" args).2 =
        [Block.textB ("Error: " ++ m)]) := by
  refine ⟨?_, ?_, ?_⟩
  · intro t ht
    simp only [queryHttpRequest] at hbk
    simp [callTool, callToolBody, hval, postJsonObj, hbk, decodeWantObj, ht, handleFailure]
  · intro hnone
    simp only [queryHttpRequest] at hbk
    simp [callTool, callToolBody, hval, postJsonObj, hbk, decodeWantObj, hnone, handleFailure]
  · intro v hv hns
    refine ⟨"1 validation error for TextContent: text Input should be a valid string", ?_⟩
    simp only [queryHttpRequest] at hbk
    cases v with
    | str t => exact absurd rfl (hns t)
    | null =>
        simp [callTool, callToolBody, hval, postJsonObj, hbk, decodeWantObj, hv, handleFailure]
    | bool b =>
        simp [callTool, callToolBody, hval, postJsonObj, hbk, decodeWantObj, hv, handleFailure]
    | num n =>
        simp [callTool, callToolBody, hval, postJsonObj, hbk, decodeWantObj, hv, handleFailure]
    | arr l =>
        simp [callTool, callToolBody, hval, postJsonObj, hbk, decodeWantObj, hv, handleFailure]
    | obj ms =>
        simp [callTool, callToolBody, hval, postJsonObj, hbk, decodeWantObj, hv, handleFailure]

end LightRag

namespace LightRag

/-- C3 witness: a backend answering the query with the object binding
response to pong yields the bare text block pong; the same theorem applied to
a reply without a response key yields the stringified whole object. -/
theorem C3_query_response_extraction_witness :
    (callTool mimeNone bkPong fsNone cfgDefault "query" [("query", Json.str "ping")]).2 =
      [Block.textB "pong"] :=
  (C3_query_response_extraction mimeNone fsNone cfgDefault
      [("query", Json.str "ping")] [("query", Json.str "ping")] bkPong
      (Json.obj [("response", Json.str "pong")]) "" [] rfl rfl).1 "pong" rfl

/-- C9: a query_stream call issues exactly one streaming POST, the client
drops every empty line of the response body, joins the remaining lines with a
single newline, and the dispatcher returns exactly one JSON block of shape
request/stream holding the validated request and that joined string. -/
theorem C9_query_stream_joins_lines (mime : MimeOracle) (fileOk : String → Bool)
    (cfg : Config) (args req : List (String × Json)) (bk : Backend)
    (dec : Option Json) (text : String) (lines : List String)
    (hval : validateQuery args = .ok req)
    (hbk : bk (queryStreamHttpRequest cfg req) = HttpResp.success dec text lines) :
    callTool mime bk fileOk cfg "query_stream" args =
      ([queryStreamHttpRequest cfg req],
       [Block.jsonB (Json.obj [("request", Json.obj req),
         ("stream", Json.str (String.intercalate "\n"
           (lines.filter (fun l => l != ""))))])]) := by
  simp only [queryStreamHttpRequest] at hbk ⊢
  simp [callTool, callToolBody, hval, postStreamObj, hbk, handleFailure,
    Json.lookup, List.lookup]

/-- C9 witness: the stream body lines line1, empty, line2 are joined to the
single string line1 newline line2 and wrapped in the request/stream block. -/
theorem C9_query_stream_joins_lines_witness :
    callTool mimeNone (fun _ => HttpResp.success none "" ["line1", "", "line2"])
        fsNone cfgDefault "query_stream" [("query", Json.str "hi")] =
      ([queryStreamHttpRequest cfgDefault [("query", Json.str "hi")]],
       [Block.jsonB (Json.obj [("request", Json.obj [("query", Json.str "hi")]),
         ("stream", Json.str "line1\nline2")])]) := by
  have h := C9_query_stream_joins_lines mimeNone fsNone cfgDefault
    [("query", Json.str "hi")] [("query", Json.str "hi")]
    (fun _ => HttpResp.success none "" ["line1", "", "line2"])
    none "" ["line1", "", "line2"] rfl rfl
  exact h.trans rfl

end LightRag

namespace LightRag

/-- When no upload task raises, the gather returns the value of every task in
input order. -/
theorem gatherUploads_all_ok (mime : MimeOracle) (bk : Backend)
    (fileOk : String → Bool) (s : Session) (l : List Json)
    (h : ∀ p ∈ l, ∃ j, (uploadFileCall mime bk fileOk s p.pyStr).2 = Except.ok j) :
    (gatherUploads mime bk fileOk s l).2 =
      Except.ok (l.map (fun p => okD (uploadFileCall mime bk fileOk s p.pyStr).2)) := by
  induction l with
  | nil => rfl
  | cons p ps ih =>
      obtain ⟨j, hj⟩ := h p (List.mem_cons_self p ps)
      have hps := ih (fun x hx => h x (List.mem_cons_of_mem p hx))
      simp [gatherUploads, hj, hps, okD]

/-- C6 amended: when no individual upload raises, the batch result is a
single JSON block whose results array is index-aligned with file_paths: it
has the same length (second conjunct), entry i is the value of the upload of
file_paths[i] (third conjunct), and an entry whose path is missing locally is
exactly the local not-found error object, independent of its siblings
(fourth conjunct). -/
theorem C6_upload_files_index_aligned (mime : MimeOracle) (bk : Backend)
    (fileOk : String → Bool) (cfg : Config) (fps : List String)
    (hne : fps ≠ [])
    (hok : ∀ p ∈ fps, ∃ j,
      (uploadFileCall mime bk fileOk (initSession cfg) p).2 = Except.ok j) :
    (callTool mime bk fileOk cfg "documents_upload_files"
        [("file_paths", Json.arr (fps.map Json.str))]).2 =
      [Block.jsonB (Json.obj [("results", Json.arr
        (fps.map (fun p => okD (uploadFileCall mime bk fileOk (initSession cfg) p).2)))])]
    ∧ (fps.map (fun p => okD (uploadFileCall mime bk fileOk (initSession cfg) p).2)).length
        = fps.length
    ∧ (∀ i (hi : i < fps.length),
        (fps.map (fun p => okD (uploadFileCall mime bk fileOk (initSession cfg) p).2)).get
            ⟨i, by simpa using hi⟩ =
          okD (uploadFileCall mime bk fileOk (initSession cfg) (fps.get ⟨i, hi⟩)).2)
    ∧ (∀ i (hi : i < fps.length), fileOk (fps.get ⟨i, hi⟩) = false →
        (fps.map (fun p => okD (uploadFileCall mime bk fileOk (initSession cfg) p).2)).get
            ⟨i, by simpa using hi⟩ =
          Json.obj [("error", Json.str ("File not found: " ++ fps.get ⟨i, hi⟩))]) := by
  have hmap : ∀ p ∈ fps.map Json.str, ∃ j,
      (uploadFileCall mime bk fileOk (initSession cfg) p.pyStr).2 = Except.ok j := by
    intro p hp
    obtain ⟨x, hx, rfl⟩ := List.mem_map.mp hp
    simpa [Json.pyStr] using hok x hx
  have hg := gatherUploads_all_ok mime bk fileOk (initSession cfg) (fps.map Json.str) hmap
  have hmm : (fps.map Json.str).map
      (fun p => okD (uploadFileCall mime bk fileOk (initSession cfg) p.pyStr).2) =
      fps.map (fun p => okD (uploadFileCall mime bk fileOk (initSession cfg) p).2) := by
    simp [List.map_map, Function.comp, Json.pyStr]
  rw [hmm] at hg
  have hne2 : (List.map Json.str fps).isEmpty = false := by
    cases fps with
    | nil => exact absurd rfl hne
    | cons q qs => rfl
  refine ⟨?_, by simp, ?_, ?_⟩
  · simp [callTool, callToolBody, argGet, List.lookup, hne2, hg, handleFailure, Except.map]
  · intro i hi
    simp [List.get_eq_getElem, List.getElem_map]
  · intro i hi hmiss
    simp only [List.get_eq_getElem] at hmiss
    simp [List.get_eq_getElem, List.getElem_map, uploadFileCall, hmiss, okD]

end LightRag

namespace LightRag

/-- C6 witness: with /a missing and /b present and an accepting backend, the
batch of the two paths returns one results array of length 2, the not-found
error shape at index 0 and the successful upload result at index 1. -/
theorem C6_upload_files_index_aligned_witness :
    (callTool mimeNone bkUploadOk fsOnlyB cfgDefault "documents_upload_files"
        [("file_paths", Json.arr [Json.str "/a", Json.str "/b"])]).2 =
      [Block.jsonB (Json.obj [("results", Json.arr
        [Json.obj [("error", Json.str "File not found: /a")],
         Json.obj [("status", Json.str "accepted")]])])] := by
  have hok : ∀ p ∈ ["/a", "/b"], ∃ j,
      (uploadFileCall mimeNone bkUploadOk fsOnlyB (initSession cfgDefault) p).2 =
        Except.ok j := by
    intro p hp
    simp only [List.mem_cons, List.not_mem_nil, or_false] at hp
    rcases hp with rfl | rfl
    · exact ⟨Json.obj [("error", Json.str "File not found: /a")], rfl⟩
    · exact ⟨Json.obj [("status", Json.str "accepted")], rfl⟩
  have h := C6_upload_files_index_aligned mimeNone bkUploadOk fsOnlyB cfgDefault
    ["/a", "/b"] (by decide) hok
  exact h.1.trans rfl

/-- C7 amended: the validations call_tool actually performs run before any
network request and surface as in-band Error text with an empty request
trace: a query call with no query argument fails validation locally (first
conjunct, with some validation message); documents_upload_file with a missing
or empty file_path, documents_upload_files with a missing or empty
file_paths, documents_insert_texts with a missing or empty texts and
documents_delete_by_ids with a missing or empty doc_ids each return the exact
required-argument error with no request issued (remaining conjuncts). -/
theorem C7_validation_before_network (mime : MimeOracle) (bk : Backend)
    (fileOk : String → Bool) (cfg : Config) (args : List (String × Json)) :
    ((args.lookup "query").isNone →
      (callTool mime bk fileOk cfg "query" args).1 = []
      ∧ ∃ m, (callTool mime bk fileOk cfg "query" args).2 =
          [Block.textB ("Error: " ++ m)])
    ∧ (args.lookup "file_path" = none ∨ args.lookup "file_path" = some (Json.str "") →
      callTool mime bk fileOk cfg "documents_upload_file" args =
        ([], [Block.textB ("Error: " ++ qn "file_path" ++ " is required")]))
    ∧ (args.lookup "file_paths" = none ∨ args.lookup "file_paths" = some (Json.arr []) →
      callTool mime bk fileOk cfg "documents_upload_files" args =
        ([], [Block.textB ("Error: " ++ qn "file_paths" ++ " must be a non-empty list")]))
    ∧ (args.lookup "texts" = none ∨ args.lookup "texts" = some (Json.arr []) →
      callTool mime bk fileOk cfg "documents_insert_texts" args =
        ([], [Block.textB ("Error: " ++ qn "texts" ++ " must be a non-empty list of strings")]))
    ∧ (args.lookup "doc_ids" = none ∨ args.lookup "doc_ids" = some (Json.arr []) →
      callTool mime bk fileOk cfg "documents_delete_by_ids" args =
        ([], [Block.textB ("Error: " ++ qn "doc_ids" ++ " must be a non-empty list of strings")])) := by
  refine ⟨?_, ?_, ?_, ?_, ?_⟩
  · intro h
    rw [Option.isNone_iff_eq_none] at h
    constructor
    · simp [callTool, callToolBody, validateQuery, h, handleFailure]
    · exact ⟨"Invalid query arguments: 1 validation error for QueryRequest: query Field required",
        by simp [callTool, callToolBody, validateQuery, h, handleFailure]⟩
  · rintro (h | h) <;>
      · simp [callTool, callToolBody, argGet, h, Json.truthy, handleFailure]
        rw [← String.append_assoc]
  · rintro (h | h) <;>
      · simp [callTool, callToolBody, argGet, h, Json.truthy, handleFailure]
        rw [← String.append_assoc]
  · rintro (h | h) <;>
      · simp [callTool, callToolBody, argGet, h, Json.truthy, handleFailure]
        rw [← String.append_assoc]
  · rintro (h | h) <;>
      · simp [callTool, callToolBody, argGet, h, Json.truthy, handleFailure]
        rw [← String.append_assoc]

/-- C7 witness: documents_upload_file with no arguments issues no request and
returns the required-argument error text. -/
theorem C7_validation_before_network_witness :
    callTool mimeNone bkPong fsNone cfgDefault "documents_upload_file" [] =
      ([], [Block.textB ("Error: " ++ qn "file_path" ++ " is required")]) :=
  (C7_validation_before_network mimeNone bkPong fsNone cfgDefault []).2.1 (Or.inl rfl)

end LightRag
